import Mathlib

/-!
Shallow embedding of the SASTRO-STARS celestial data and projection engine
(src/components/Visualizer.tsx and src/services/starGen.ts).

Numbers are modelled as exact rationals wherever the source computes with
plain arithmetic, and as reals where the source takes logarithms or real
powers.  Quantities produced upstream by the floating-point spherical
transform (the altitude altDeg and the per-mode projected offsets of
getScreenPos) enter the per-star pipeline as parameters, so every theorem
about the pipeline quantifies over all values those computations can take.
-/

namespace Sastro

/-- AppMode enumeration from src/types.ts. -/
inductive AppMode
  | SKY
  | CLASSIFICATION
  | GALAXY
  | HR_DIAGRAM
  | CENSUS
deriving DecidableEq

/-- SpectralType enumeration from src/types.ts. -/
inductive SpectralType
  | O
  | B
  | A
  | F
  | G
  | K
  | M
deriving DecidableEq

/-- ObserverState record from src/types.ts. -/
structure ObserverState where
  latitude : ℚ
  localSiderealTime : ℚ
  lightPollutionLimit : ℚ
  isPaused : Bool
  timeSpeed : ℚ
deriving DecidableEq

/-- Instrument magnitude limit, Visualizer.tsx line 46. -/
def instrumentLimit (observationalPower : ℚ) : ℚ :=
  3 + observationalPower * 12

/-- Light-pollution magnitude limit, Visualizer.tsx line 47. -/
def pollutionLimit (lightPollutionLimit : ℚ) : ℚ :=
  2.5 + lightPollutionLimit * 4.5

/-- Effective magnitude limit, Visualizer.tsx line 48. -/
def effectiveLimit (observationalPower lightPollutionLimit : ℚ) : ℚ :=
  min (instrumentLimit observationalPower)
    (pollutionLimit lightPollutionLimit + observationalPower * 5)

/-- Transition state held in transitionRef, Visualizer.tsx lines 37-43. -/
structure TransitionState where
  progress : ℚ
  sourceMode : AppMode
  targetMode : AppMode
  startTime : ℚ
  duration : ℚ
deriving DecidableEq

/-- Mode-change effect, Visualizer.tsx lines 50-57: when the externally
requested mode differs from the current target, the target is pushed to the
source, the new target adopted, progress reset to 0 and the start time
stamped; otherwise the state is untouched. -/
def requestMode (st : TransitionState) (mode : AppMode) (now : ℚ) : TransitionState :=
  if mode ≠ st.targetMode then
    { progress := 0
      sourceMode := st.targetMode
      targetMode := mode
      startTime := now
      duration := st.duration }
  else st

/-- Ease-out cubic, Visualizer.tsx line 94. -/
def easeOutCubic (t : ℚ) : ℚ := 1 - (1 - t) ^ 3

/-- Step-2 transition math of the render loop, Visualizer.tsx lines 89-98:
the eased progress stored back into the transition state; the local t used
for interpolation in the rest of the frame equals the same value. -/
def updateProgress (st : TransitionState) (time : ℚ) : ℚ :=
  if st.progress < 1 then
    easeOutCubic (min ((time - st.startTime) / st.duration) 1)
  else st.progress

/-- Interpolated screen position of a star, Visualizer.tsx lines 206-207. -/
def currentPos (center startPos endPos : ℚ × ℚ) (t : ℚ) : ℚ × ℚ :=
  (center.1 + (startPos.1 + (endPos.1 - startPos.1) * t),
   center.2 + (startPos.2 + (endPos.2 - startPos.2) * t))

/-- Truncation toward zero, matching the behaviour of the remainder
operator of the source language on finite operands. -/
def jsTrunc (x : ℚ) : ℤ := if 0 ≤ x then ⌊x⌋ else ⌈x⌉

/-- Remainder with truncation toward zero, the semantics of the percent
operator of the source language on finite operands. -/
def jsMod (x y : ℚ) : ℚ := x - y * jsTrunc (x / y)

/-- Step-1 time and rotation update of the render loop, Visualizer.tsx
lines 77-86: the only write the loop performs on the observer state. -/
def updateObserver (obs : ObserverState) (mode : AppMode) (delta : ℚ) : ObserverState :=
  if obs.isPaused = false ∧ mode = AppMode.SKY then
    { obs with
        localSiderealTime := jsMod (obs.localSiderealTime + delta * 0.01 * obs.timeSpeed) 360 }
  else obs

/-- Per-frame parameters read by the star loop.  The field t is the eased
transition progress after the step-2 update; the source reads this same
value both as transitionRef.current.progress (line 164) and as the local t
(lines 206-207, 237). -/
structure RenderParams where
  mode : AppMode
  sourceMode : AppMode
  targetMode : AppMode
  t : ℚ
deriving DecidableEq

/-- Per-star inputs of one loop iteration.  altDeg is the altitude computed
by the spherical transform of lines 143-158, and startPos and endPos are
the getScreenPos offsets for the source and target modes (lines 169-204);
they enter as parameters so statements range over every value those
floating-point computations can produce. -/
structure StarInput where
  spectralType : SpectralType
  apparentMagnitude : ℚ
  altDeg : ℚ
  startPos : ℚ × ℚ
  endPos : ℚ × ℚ
deriving DecidableEq

/-- Magnitude fade, Visualizer.tsx lines 218-222. -/
def magAlpha (effLimit appMag : ℚ) : ℚ :=
  if appMag > effLimit - 1 then effLimit - appMag else 1

/-- Altitude-dependent extinction fraction, Visualizer.tsx lines 226-229. -/
def extinction (altDeg : ℚ) : ℚ :=
  if altDeg < 30 then (30 - altDeg) / 30 else 0

/-- Extinction factor, Visualizer.tsx lines 231-238: full strength in the
horizon-based modes, blended toward 1 by the transition progress when the
transition source is Sky, and 1 otherwise. -/
def extinctionFactor (mode sourceMode : AppMode) (t altDeg : ℚ) : ℚ :=
  if mode = AppMode.SKY ∨ mode = AppMode.CLASSIFICATION then
    1 - extinction altDeg * 0.7
  else if sourceMode = AppMode.SKY then
    (1 - extinction altDeg * 0.7) + (1 - (1 - extinction altDeg * 0.7)) * t
  else 1

/-- Horizon fade, Visualizer.tsx lines 243-247, expressed as the factor
multiplied into alpha (1 when the branch is not taken). -/
def horizonFade (mode targetMode : AppMode) (altDeg : ℚ) : ℚ :=
  if altDeg < 0 ∧ (mode = AppMode.SKY ∨ targetMode = AppMode.SKY) then
    max 0 (1 + altDeg / 5)
  else 1

/-- Extinction factor as the specification claim words it: the blend toward 1
applies during any transition whose source mode is horizon-based (Sky or
Classification).  Stated only for comparison with extinctionFactor, which
blends for a Sky source alone. -/
def extinctionFactorSpec (mode sourceMode : AppMode) (t altDeg : ℚ) : ℚ :=
  if mode = AppMode.SKY ∨ mode = AppMode.CLASSIFICATION then
    1 - extinction altDeg * 0.7
  else if sourceMode = AppMode.SKY ∨ sourceMode = AppMode.CLASSIFICATION then
    (1 - extinction altDeg * 0.7) + (1 - (1 - extinction altDeg * 0.7)) * t
  else 1

/-- Final alpha of a star that passed the global filter checks,
Visualizer.tsx lines 218-247. -/
def starAlpha (p : RenderParams) (effLimit : ℚ) (s : StarInput) : ℚ :=
  magAlpha effLimit s.apparentMagnitude
    * extinctionFactor p.mode p.sourceMode p.t s.altDeg
    * horizonFade p.mode p.targetMode s.altDeg

/-- Draw command emitted for a visible star. -/
structure DrawCmd where
  x : ℚ
  y : ℚ
  alpha : ℚ
deriving DecidableEq

/-- One iteration of the star loop, Visualizer.tsx lines 135-267: global
filter checks (lines 137-138), horizon culling (lines 164-166),
interpolated position (lines 203-207), appearance (lines 218-247) and the
final alpha guard (line 249).  The result is none exactly when the star is
neither drawn nor counted. -/
def processStar (p : RenderParams) (activeFilters : List SpectralType)
    (effLimit : ℚ) (center : ℚ × ℚ) (s : StarInput) : Option DrawCmd :=
  if s.spectralType ∉ activeFilters then none
  else if s.apparentMagnitude > effLimit then none
  else if p.t ≥ 1 ∧ (p.mode = AppMode.SKY ∨ p.mode = AppMode.CLASSIFICATION)
      ∧ s.altDeg < -5 then none
  else
    let pos := currentPos center s.startPos s.endPos p.t
    let alpha := starAlpha p effLimit s
    if alpha ≤ 0 then none
    else some { x := pos.1, y := pos.2, alpha := alpha }

/-- Per-frame visible count, Visualizer.tsx lines 133, 251 and 329: the
number of stars of the catalog that reach the draw call. -/
def visibleCount (p : RenderParams) (activeFilters : List SpectralType)
    (effLimit : ℚ) (center : ℚ × ℚ) (stars : List StarInput) : ℕ :=
  (stars.filter (fun s => (processStar p activeFilters effLimit center s).isSome)).length

/-- One row of the spectral weight table, starGen.ts lines 15-23. -/
structure SpectralWeight where
  type : SpectralType
  weight : ℚ
  minTemp : ℚ
  maxTemp : ℚ
deriving DecidableEq

/-- Spectral weight table, starGen.ts lines 15-23. -/
def SPECTRAL_WEIGHTS : List SpectralWeight :=
  [⟨.O, 0.00003, 30000, 50000⟩,
   ⟨.B, 0.0013, 10000, 30000⟩,
   ⟨.A, 0.006, 7500, 10000⟩,
   ⟨.F, 0.03, 6000, 7500⟩,
   ⟨.G, 0.076, 5200, 6000⟩,
   ⟨.K, 0.121, 3700, 5200⟩,
   ⟨.M, 0.7645, 2400, 3700⟩]

/-- Weighted-table walk of generateStars, starGen.ts lines 68-76.  The
fallback argument models the initialisation of typeData with the last table
entry before the loop. -/
def pickType (rand : ℚ) : List SpectralWeight → SpectralWeight → SpectralWeight
  | [], fallback => fallback
  | w :: ws, fallback =>
      if rand < w.weight then w else pickType (rand - w.weight) ws fallback

/-- Uniform range sampler randomRange, starGen.ts lines 25-27, with the
uniform draw in [0,1) made explicit as the first argument. -/
def randomRange (r lo hi : ℚ) : ℚ := r * (hi - lo) + lo

/-- Physical, magnitude and HR-diagram fields of one generated star. -/
structure StarPhys where
  spectralType : SpectralType
  temperature : ℚ
  luminosity : ℚ
  hrX : ℝ
  hrY : ℝ
  absoluteMagnitude : ℝ
  apparentMagnitude : ℝ

/-- Physical, magnitude and HR-diagram part of one generateStars iteration,
starGen.ts lines 66-129, as a function of the uniform draws it consumes:
r0 selects the spectral class, r1 the temperature within the class range,
r2 the luminosity factor in [0.5,1.5) and r3 the distance exponent in
[0,3.8).  The spatial fields (galX, galY, galZ, ra, dec) consume separate
draws and feed none of the fields modelled here.  The stored hrY is the
negation of the local hrY of line 109 (push at line 119). -/
noncomputable def genStarPhys (r0 r1 r2 r3 : ℚ) : StarPhys :=
  let typeData := pickType r0 SPECTRAL_WEIGHTS ⟨.M, 0.7645, 2400, 3700⟩
  let temperature := randomRange r1 typeData.minTemp typeData.maxTemp
  let normalizedTemp := temperature / 5778
  let luminosity := normalizedTemp ^ 7 * randomRange r2 0.5 1.5
  let distancePc : ℝ := (10 : ℝ) ^ ((randomRange r3 0 3.8 : ℚ) : ℝ)
  let absMag : ℝ := -2.5 * Real.logb 10 (luminosity : ℝ) + 4.83
  let appMag : ℝ := absMag + 5 * (Real.logb 10 distancePc - 1)
  let logTemp : ℝ := Real.logb 10 (temperature : ℝ)
  let hrX : ℝ := -((logTemp - 3.3) / (4.7 - 3.3) * 2 - 1)
  let logLum : ℝ := Real.logb 10 (luminosity : ℝ)
  let hrY : ℝ := (logLum - (-4)) / (6 - (-4)) * 2 - 1
  { spectralType := typeData.type
    temperature := temperature
    luminosity := luminosity
    hrX := hrX
    hrY := -hrY
    absoluteMagnitude := absMag
    apparentMagnitude := appMag }

/-! Helper lemmas shared by several claim theorems. -/

/-- Conditional extinction fraction equals its clamped closed form. -/
theorem extinction_eq_max (altDeg : ℚ) : extinction altDeg = max 0 ((30 - altDeg) / 30) := by
  unfold extinction
  split_ifs with h
  · rw [max_eq_right]
    linarith
  · rw [max_eq_left]
    linarith

/-- Extinction fraction is non-negative. -/
theorem extinction_nonneg (altDeg : ℚ) : 0 ≤ extinction altDeg := by
  unfold extinction
  split_ifs with h
  · linarith
  · linarith

/-- Extinction factor never amplifies alpha once eased progress is at most 1. -/
theorem extinctionFactor_le_one (mode sourceMode : AppMode) (t altDeg : ℚ) (ht : t ≤ 1) :
    extinctionFactor mode sourceMode t altDeg ≤ 1 := by
  have he := extinction_nonneg altDeg
  unfold extinctionFactor
  split_ifs with h1 h2
  · linarith
  · nlinarith
  · linarith

/-- Horizon fade is non-negative. -/
theorem horizonFade_nonneg (mode targetMode : AppMode) (altDeg : ℚ) :
    0 ≤ horizonFade mode targetMode altDeg := by
  unfold horizonFade
  split_ifs with h
  · exact le_max_left 0 _
  · linarith

/-- Horizon fade never amplifies alpha. -/
theorem horizonFade_le_one (mode targetMode : AppMode) (altDeg : ℚ) :
    horizonFade mode targetMode altDeg ≤ 1 := by
  unfold horizonFade
  split_ifs with h
  · apply max_le
    · linarith
    · linarith [h.1]
  · linarith

/-- Magnitude fade of an included star is non-negative. -/
theorem magAlpha_nonneg (effLimit appMag : ℚ) (h : appMag ≤ effLimit) :
    0 ≤ magAlpha effLimit appMag := by
  unfold magAlpha
  split_ifs with h1
  · linarith
  · linarith

/-- Magnitude fade never exceeds 1. -/
theorem magAlpha_le_one (effLimit appMag : ℚ) : magAlpha effLimit appMag ≤ 1 := by
  unfold magAlpha
  split_ifs with h1
  · linarith
  · linarith

/-- Stored eased progress never exceeds 1, so the hypothesis of the alpha
range theorem is a loop invariant: it holds at initialisation (progress 1),
after a mode request (progress 0) and after every frame update. -/
theorem updateProgress_le_one (st : TransitionState) (time : ℚ) (h : st.progress ≤ 1) :
    updateProgress st time ≤ 1 := by
  unfold updateProgress easeOutCubic
  split_ifs with h1
  · have hm : min ((time - st.startTime) / st.duration) 1 ≤ 1 := min_le_right _ _
    nlinarith [pow_nonneg (by linarith : (0:ℚ) ≤ 1 - min ((time - st.startTime) / st.duration) 1) 3]
  · exact h


/-- C9: for every fixed lightPollutionLimit, effectiveLimit is monotone
non-decreasing in observationalPower. -/
theorem effectiveLimit_mono (l p1 p2 : ℚ) (h : p1 ≤ p2) :
    effectiveLimit p1 l ≤ effectiveLimit p2 l := by
  unfold effectiveLimit instrumentLimit pollutionLimit
  apply min_le_min
  · linarith
  · linarith

theorem effectiveLimit_mono_witness :
    (0 : ℚ) ≤ 1 ∧ effectiveLimit 0 0.3 ≤ effectiveLimit 1 0.3 :=
  ⟨by norm_num, effectiveLimit_mono 0.3 0 1 (by norm_num)⟩

/-- C1 counterexample: with observationalPower 0.05 and lightPollutionLimit
0.2 the effective limit is 3.6 as claimed, but a star of apparent magnitude
3.0 gets pre-extinction alpha 0.6, not 1, because 3.0 exceeds
effectiveLimit - 1 = 2.6 and so falls in the linear fade band. -/
theorem scenario_alpha_not_one :
    effectiveLimit 0.05 0.2 = 3.6 ∧
    magAlpha (effectiveLimit 0.05 0.2) 3 = 0.6 ∧
    magAlpha (effectiveLimit 0.05 0.2) 3 ≠ 1 := by
  refine ⟨?_, ?_, ?_⟩ <;>
    norm_num [effectiveLimit, instrumentLimit, pollutionLimit, magAlpha, min_def]

/-- C1 amended: with observationalPower 0.05 and lightPollutionLimit 0.2
the effective limit is 3.6; a star of an active spectral type with apparent
magnitude 3.0 is included and drawn, with pre-extinction alpha
effectiveLimit - 3.0 = 0.6 (at the zenith in stable Sky mode the extinction
and horizon factors are both 1, so 0.6 is also the final alpha); a star of
apparent magnitude 6.0 is excluded. -/
theorem scenario_amended :
    effectiveLimit 0.05 0.2 = 3.6 ∧
    processStar ⟨AppMode.SKY, AppMode.SKY, AppMode.SKY, 1⟩ [SpectralType.G]
        (effectiveLimit 0.05 0.2) (0, 0) ⟨SpectralType.G, 3, 90, (0, 0), (0, 0)⟩
      = some ⟨0, 0, 0.6⟩ ∧
    processStar ⟨AppMode.SKY, AppMode.SKY, AppMode.SKY, 1⟩ [SpectralType.G]
        (effectiveLimit 0.05 0.2) (0, 0) ⟨SpectralType.G, 6, 90, (0, 0), (0, 0)⟩
      = none := by
  refine ⟨?_, ?_, ?_⟩ <;>
    norm_num [processStar, effectiveLimit, instrumentLimit, pollutionLimit, min_def,
      starAlpha, magAlpha, extinction, extinctionFactor, horizonFade, currentPos]

/-- C5: requesting the mode already targeted leaves the transition state
unchanged; requesting a different mode, also mid-transition, pushes the
previous target to the source, adopts the new target, resets progress to 0
and stamps the start time. -/
theorem requestMode_behavior (st : TransitionState) (m : AppMode) (now : ℚ) :
    (m = st.targetMode → requestMode st m now = st) ∧
    (m ≠ st.targetMode →
      requestMode st m now =
        { progress := 0
          sourceMode := st.targetMode
          targetMode := m
          startTime := now
          duration := st.duration }) := by
  constructor
  · intro h
    simp [requestMode, h]
  · intro h
    simp [requestMode, h]

theorem requestMode_behavior_witness :
    requestMode ⟨1, AppMode.SKY, AppMode.SKY, 0, 1500⟩ AppMode.SKY 42
      = ⟨1, AppMode.SKY, AppMode.SKY, 0, 1500⟩ ∧
    requestMode ⟨0.4, AppMode.SKY, AppMode.GALAXY, 7, 1500⟩ AppMode.HR_DIAGRAM 42
      = ⟨0, AppMode.GALAXY, AppMode.HR_DIAGRAM, 42, 1500⟩ :=
  ⟨(requestMode_behavior ⟨1, AppMode.SKY, AppMode.SKY, 0, 1500⟩ AppMode.SKY 42).1 rfl,
   (requestMode_behavior ⟨0.4, AppMode.SKY, AppMode.GALAXY, 7, 1500⟩ AppMode.HR_DIAGRAM 42).2
     (by simp)⟩

/-- C6: localSiderealTime advances by delta times 0.01 times timeSpeed,
wrapped modulo 360, exactly when the observer is unpaused and the current
mode is Sky; otherwise the observer state is returned untouched; and in
either case no field other than localSiderealTime is ever written. -/
theorem updateObserver_behavior (obs : ObserverState) (mode : AppMode) (delta : ℚ) :
    (obs.isPaused = false ∧ mode = AppMode.SKY →
      updateObserver obs mode delta =
        { obs with
            localSiderealTime :=
              jsMod (obs.localSiderealTime + delta * 0.01 * obs.timeSpeed) 360 }) ∧
    (¬(obs.isPaused = false ∧ mode = AppMode.SKY) →
      updateObserver obs mode delta = obs) ∧
    (updateObserver obs mode delta).latitude = obs.latitude ∧
    (updateObserver obs mode delta).lightPollutionLimit = obs.lightPollutionLimit ∧
    (updateObserver obs mode delta).isPaused = obs.isPaused ∧
    (updateObserver obs mode delta).timeSpeed = obs.timeSpeed := by
  refine ⟨fun h => ?_, fun h => ?_, ?_, ?_, ?_, ?_⟩ <;>
    simp only [updateObserver] <;> split_ifs <;> simp_all

theorem updateObserver_behavior_witness :
    updateObserver ⟨14, 10, 0.2, false, 2⟩ AppMode.SKY 5 = ⟨14, 10.1, 0.2, false, 2⟩ := by
  have h := (updateObserver_behavior ⟨14, 10, 0.2, false, 2⟩ AppMode.SKY 5).1 ⟨rfl, rfl⟩
  rw [h]
  norm_num [jsMod, jsTrunc]

/-- C7 counterexample: the code clamps the linear time fraction only from
above; when the frame timestamp precedes the recorded start time the stored
progress is the unclamped ease value, here -7 at linear fraction -1, while
the claimed formula with clamp((now - startTime)/1500, 0, 1) gives 0. -/
theorem updateProgress_unclamped :
    updateProgress ⟨0.5, AppMode.SKY, AppMode.GALAXY, 1500, 1500⟩ 0 = -7 ∧
    easeOutCubic (min (max ((0 - 1500) / 1500) 0) 1) = 0 ∧
    updateProgress ⟨0.5, AppMode.SKY, AppMode.GALAXY, 1500, 1500⟩ 0 ≠
      easeOutCubic (min (max ((0 - 1500) / 1500) 0) 1) := by
  refine ⟨?_, ?_, ?_⟩ <;>
    norm_num [updateProgress, easeOutCubic, min_def, max_def]

/-- C7 amended: on every frame of an in-progress transition whose timestamp
is at or after the stored start time (the only reachable case, since the
start time is taken from the same clock earlier), the stored progress is
the ease-out cubic of the linear fraction min((now - startTime)/1500, 1),
which then equals the claimed clamped fraction, and every interpolated
screen position is the blend source + (target - source) times that eased
progress. -/
theorem updateProgress_interp (st : TransitionState) (time : ℚ) (c sp ep : ℚ × ℚ)
    (h1 : st.progress < 1) (h2 : st.duration = 1500) (h3 : st.startTime ≤ time) :
    updateProgress st time
      = easeOutCubic (min (max ((time - st.startTime) / 1500) 0) 1) ∧
    currentPos c sp ep (updateProgress st time)
      = (c.1 + (sp.1 + (ep.1 - sp.1) * updateProgress st time),
         c.2 + (sp.2 + (ep.2 - sp.2) * updateProgress st time)) := by
  constructor
  · unfold updateProgress
    rw [if_pos h1, h2, max_eq_left (div_nonneg (by linarith) (by norm_num))]
  · simp [currentPos]


theorem updateProgress_interp_witness :
    (0.5 : ℚ) < 1 ∧ (0 : ℚ) ≤ 750 ∧
    (updateProgress ⟨0.5, AppMode.SKY, AppMode.GALAXY, 0, 1500⟩ 750
        = easeOutCubic (min (max ((750 - 0) / 1500) 0) 1) ∧
      currentPos (0, 0) (2, 2) (4, 6)
          (updateProgress ⟨0.5, AppMode.SKY, AppMode.GALAXY, 0, 1500⟩ 750)
        = ((0 : ℚ) + (2 + (4 - 2) * updateProgress ⟨0.5, AppMode.SKY, AppMode.GALAXY, 0, 1500⟩ 750),
           (0 : ℚ) + (2 + (6 - 2) * updateProgress ⟨0.5, AppMode.SKY, AppMode.GALAXY, 0, 1500⟩ 750))) :=
  ⟨by norm_num, by norm_num,
   updateProgress_interp ⟨0.5, AppMode.SKY, AppMode.GALAXY, 0, 1500⟩ 750 (0, 0) (2, 2) (4, 6)
     (by norm_num) rfl (by norm_num)⟩

/-- C3 counterexample: at the start of a transition from Classification to
Galaxy a star at altitude 0 keeps extinction factor 1 in the code, because
the blend fires only when the transition source is Sky, while the claimed
rule prescribes the blended value 0.3 for any horizon-based source. -/
theorem extinctionFactor_classification_source_diverges :
    extinctionFactor AppMode.GALAXY AppMode.CLASSIFICATION 0 0 = 1 ∧
    extinctionFactorSpec AppMode.GALAXY AppMode.CLASSIFICATION 0 0 = 0.3 ∧
    extinctionFactor AppMode.GALAXY AppMode.CLASSIFICATION 0 0 ≠
      extinctionFactorSpec AppMode.GALAXY AppMode.CLASSIFICATION 0 0 := by
  have he : extinction 0 = 1 := by norm_num [extinction]
  refine ⟨?_, ?_, ?_⟩ <;> simp [extinctionFactor, extinctionFactorSpec, he] <;> norm_num

/-- C3 amended: while Sky or Classification is the active mode, alpha is
multiplied by the extinction factor 1 - 0.7 * max(0, (30 - altDeg)/30);
during a transition toward a non-horizon mode the factor is blended toward
1 by the transition progress only when the source mode is Sky; when the
source mode is Classification (or any other non-Sky mode) the factor is 1
with no blend.  The factor enters alpha multiplicatively via starAlpha. -/
theorem extinctionFactor_cases (p : RenderParams) (effLimit : ℚ) (s : StarInput) :
    (p.mode = AppMode.SKY ∨ p.mode = AppMode.CLASSIFICATION →
      extinctionFactor p.mode p.sourceMode p.t s.altDeg
        = 1 - 0.7 * max 0 ((30 - s.altDeg) / 30)) ∧
    (¬(p.mode = AppMode.SKY ∨ p.mode = AppMode.CLASSIFICATION) →
      p.sourceMode = AppMode.SKY →
      extinctionFactor p.mode p.sourceMode p.t s.altDeg
        = (1 - 0.7 * max 0 ((30 - s.altDeg) / 30))
            + (1 - (1 - 0.7 * max 0 ((30 - s.altDeg) / 30))) * p.t) ∧
    (¬(p.mode = AppMode.SKY ∨ p.mode = AppMode.CLASSIFICATION) →
      p.sourceMode ≠ AppMode.SKY →
      extinctionFactor p.mode p.sourceMode p.t s.altDeg = 1) ∧
    starAlpha p effLimit s
      = magAlpha effLimit s.apparentMagnitude
          * extinctionFactor p.mode p.sourceMode p.t s.altDeg
          * horizonFade p.mode p.targetMode s.altDeg := by
  refine ⟨fun h => ?_, fun h h2 => ?_, fun h h2 => ?_, rfl⟩
  · unfold extinctionFactor
    rw [if_pos h, extinction_eq_max]
    ring
  · unfold extinctionFactor
    rw [if_neg h, if_pos h2, extinction_eq_max]
    ring
  · unfold extinctionFactor
    rw [if_neg h, if_neg h2]

theorem extinctionFactor_cases_witness :
    extinctionFactor AppMode.GALAXY AppMode.SKY 0.5 0
      = (1 - 0.7 * max 0 ((30 - 0) / 30)) + (1 - (1 - 0.7 * max 0 ((30 - 0) / 30))) * 0.5 :=
  (extinctionFactor_cases ⟨AppMode.GALAXY, AppMode.SKY, AppMode.GALAXY, 0.5⟩ 6
      ⟨SpectralType.G, 3, 0, (0, 0), (0, 0)⟩).2.1 (by simp) rfl

/-- C4: a star whose spectral type is not active or whose magnitude exceeds
the effective limit is excluded before any projection; a star whose final
alpha is non-positive is not drawn; an excluded star contributes nothing to
the visible count; and every drawn star has strictly positive alpha. -/
theorem exclusion_and_count (p : RenderParams) (fs : List SpectralType) (eL : ℚ)
    (c : ℚ × ℚ) (s : StarInput) (rest : List StarInput) :
    (s.spectralType ∉ fs ∨ s.apparentMagnitude > eL →
      processStar p fs eL c s = none) ∧
    (starAlpha p eL s ≤ 0 → processStar p fs eL c s = none) ∧
    (processStar p fs eL c s = none →
      visibleCount p fs eL c (s :: rest) = visibleCount p fs eL c rest) ∧
    (∀ d, processStar p fs eL c s = some d → 0 < d.alpha) := by
  refine ⟨fun h => ?_, fun h => ?_, fun h => ?_, fun d hd => ?_⟩
  · simp only [processStar]
    rcases h with h | h
    · rw [if_pos h]
    · by_cases h1 : s.spectralType ∉ fs
      · rw [if_pos h1]
      · rw [if_neg h1, if_pos h]
  · simp only [processStar]
    by_cases h1 : s.spectralType ∉ fs
    · rw [if_pos h1]
    · rw [if_neg h1]
      by_cases h2 : s.apparentMagnitude > eL
      · rw [if_pos h2]
      · rw [if_neg h2]
        by_cases h3 : p.t ≥ 1 ∧ (p.mode = AppMode.SKY ∨ p.mode = AppMode.CLASSIFICATION)
            ∧ s.altDeg < -5
        · rw [if_pos h3]
        · rw [if_neg h3, if_pos h]
  · simp [visibleCount, List.filter_cons, h]
  · simp only [processStar] at hd
    split_ifs at hd with h1 h2 h3 h4
    rw [Option.some_inj] at hd
    rw [← hd]
    push_neg at h4
    exact h4

theorem exclusion_and_count_witness :
    processStar ⟨AppMode.GALAXY, AppMode.GALAXY, AppMode.GALAXY, 1⟩ [] 6 (0, 0)
      ⟨SpectralType.G, 3, 90, (0, 0), (0, 0)⟩ = none :=
  (exclusion_and_count ⟨AppMode.GALAXY, AppMode.GALAXY, AppMode.GALAXY, 1⟩ [] 6 (0, 0)
      ⟨SpectralType.G, 3, 90, (0, 0), (0, 0)⟩ []).1 (Or.inl (by simp))

/-- C8: when no transition is in progress (progress 1) and the active mode
is Sky or Classification, a star with altitude strictly below -5 yields
none (not projected, drawn or counted); while a transition is in progress
the altitude hard-cull never fires: a star yields none exactly when the
filter, magnitude or final-alpha rules exclude it. -/
theorem horizon_cull (p : RenderParams) (fs : List SpectralType) (eL : ℚ)
    (c : ℚ × ℚ) (s : StarInput) :
    (p.t = 1 → p.mode = AppMode.SKY ∨ p.mode = AppMode.CLASSIFICATION →
      s.altDeg < -5 → processStar p fs eL c s = none) ∧
    (p.t < 1 →
      (processStar p fs eL c s = none ↔
        s.spectralType ∉ fs ∨ s.apparentMagnitude > eL ∨ starAlpha p eL s ≤ 0)) := by
  constructor
  · intro h1 h2 h3
    have hcull : p.t ≥ 1 ∧ (p.mode = AppMode.SKY ∨ p.mode = AppMode.CLASSIFICATION)
        ∧ s.altDeg < -5 := ⟨h1.ge, h2, h3⟩
    simp only [processStar]
    by_cases ha : s.spectralType ∉ fs
    · rw [if_pos ha]
    · rw [if_neg ha]
      by_cases hb : s.apparentMagnitude > eL
      · rw [if_pos hb]
      · rw [if_neg hb, if_pos hcull]
  · intro hp
    have hc : ¬(p.t ≥ 1 ∧ (p.mode = AppMode.SKY ∨ p.mode = AppMode.CLASSIFICATION)
        ∧ s.altDeg < -5) := by
      rintro ⟨ha, -, -⟩
      linarith
    constructor
    · intro hnone
      by_contra hcon
      push_neg at hcon
      obtain ⟨hmem, hmag, hal⟩ := hcon
      simp only [processStar] at hnone
      rw [if_neg (not_not_intro hmem), if_neg (not_lt.mpr hmag), if_neg hc,
          if_neg (not_le.mpr hal)] at hnone
      exact Option.noConfusion hnone
    · intro h
      simp only [processStar]
      by_cases h1 : s.spectralType ∉ fs
      · rw [if_pos h1]
      · rw [if_neg h1]
        by_cases h2 : s.apparentMagnitude > eL
        · rw [if_pos h2]
        · rw [if_neg h2, if_neg hc]
          have h4 : starAlpha p eL s ≤ 0 := by tauto
          rw [if_pos h4]

theorem horizon_cull_witness :
    processStar ⟨AppMode.SKY, AppMode.SKY, AppMode.SKY, 1⟩ [SpectralType.G] 6 (0, 0)
      ⟨SpectralType.G, 3, -10, (0, 0), (0, 0)⟩ = none :=
  (horizon_cull ⟨AppMode.SKY, AppMode.SKY, AppMode.SKY, 1⟩ [SpectralType.G] 6 (0, 0)
      ⟨SpectralType.G, 3, -10, (0, 0), (0, 0)⟩).1 rfl (Or.inl rfl) (by norm_num)

/-- C10: under the loop invariant that the eased progress never exceeds 1,
every star that reaches the draw call has alpha strictly greater than 0 and
at most 1, even though no final clamp is applied: the magnitude fade of an
included star lies in [0,1], the extinction factor and horizon fade never
exceed 1, and any non-positive product is skipped by the final guard. -/
theorem drawn_alpha_unit (p : RenderParams) (fs : List SpectralType) (eL : ℚ)
    (c : ℚ × ℚ) (s : StarInput) (d : DrawCmd) (ht : p.t ≤ 1)
    (hd : processStar p fs eL c s = some d) :
    0 < d.alpha ∧ d.alpha ≤ 1 := by
  simp only [processStar] at hd
  split_ifs at hd with h1 h2 h3 h4
  rw [Option.some_inj] at hd
  rw [← hd]
  push_neg at h2 h4
  show 0 < starAlpha p eL s ∧ starAlpha p eL s ≤ 1
  have hm0 : 0 ≤ magAlpha eL s.apparentMagnitude := magAlpha_nonneg eL s.apparentMagnitude h2
  have hm1 : magAlpha eL s.apparentMagnitude ≤ 1 := magAlpha_le_one eL s.apparentMagnitude
  have hf1 : extinctionFactor p.mode p.sourceMode p.t s.altDeg ≤ 1 :=
    extinctionFactor_le_one p.mode p.sourceMode p.t s.altDeg ht
  have hh0 : 0 ≤ horizonFade p.mode p.targetMode s.altDeg :=
    horizonFade_nonneg p.mode p.targetMode s.altDeg
  have hh1 : horizonFade p.mode p.targetMode s.altDeg ≤ 1 :=
    horizonFade_le_one p.mode p.targetMode s.altDeg
  refine ⟨h4, ?_⟩
  unfold starAlpha at h4 ⊢
  rcases le_or_lt (extinctionFactor p.mode p.sourceMode p.t s.altDeg) 0 with hf | hf
  · exfalso
    nlinarith [mul_nonneg hm0 hh0]
  · nlinarith [mul_nonneg hm0 hf.le, mul_nonneg hm0 (sub_nonneg.mpr hf1),
      mul_nonneg (mul_nonneg hm0 hf.le) (sub_nonneg.mpr hh1)]

theorem drawn_alpha_unit_witness :
    (1 : ℚ) ≤ 1 ∧
    (0 : ℚ) < DrawCmd.alpha ⟨0, 0, 1⟩ ∧ DrawCmd.alpha ⟨0, 0, 1⟩ ≤ 1 :=
  ⟨by norm_num,
   drawn_alpha_unit ⟨AppMode.SKY, AppMode.SKY, AppMode.SKY, 1⟩ [SpectralType.G] 6 (0, 0)
     ⟨SpectralType.G, 3, 90, (0, 0), (0, 0)⟩ ⟨0, 0, 1⟩ (by norm_num)
     (by norm_num [processStar, starAlpha, magAlpha, extinction, extinctionFactor,
        horizonFade, currentPos])⟩

/-- C2: the generator violates the documented normalisation of the HR
coordinates: an O-type draw (r0 = 0.00001) with temperature draw r1 = 0.95
(temperature 49000 K) and luminosity factor draw r2 = 0.9 (factor 1.4)
yields luminosity (49000/5778)^7 * 1.4 > 10^6, so the stored hrY lies
strictly below -1. -/
theorem genStar_hrY_below_neg_one :
    (genStarPhys 0.00001 0.95 0.9 0).spectralType = SpectralType.O ∧
    (genStarPhys 0.00001 0.95 0.9 0).hrY < -1 := by
  have hty : pickType 0.00001 SPECTRAL_WEIGHTS ⟨.M, 0.7645, 2400, 3700⟩
      = ⟨.O, 0.00003, 30000, 50000⟩ := by
    norm_num [pickType, SPECTRAL_WEIGHTS]
  have hL : (genStarPhys 0.00001 0.95 0.9 0).luminosity = (49000 / 5778) ^ 7 * 1.4 := by
    simp only [genStarPhys, hty]
    norm_num [randomRange]
  have hLpos : (0 : ℝ) < ((genStarPhys 0.00001 0.95 0.9 0).luminosity : ℝ) := by
    rw [hL]
    positivity
  have hLbig : ((10 : ℝ)) ^ (6 : ℕ) < ((genStarPhys 0.00001 0.95 0.9 0).luminosity : ℝ) := by
    rw [hL]
    have h : ((10 : ℚ)) ^ (6 : ℕ) < (49000 / 5778 : ℚ) ^ 7 * 1.4 := by norm_num
    exact_mod_cast h
  have h6 : (6 : ℝ) < Real.logb 10 ((genStarPhys 0.00001 0.95 0.9 0).luminosity : ℝ) := by
    rw [Real.lt_logb_iff_rpow_lt (by norm_num) hLpos]
    calc (10 : ℝ) ^ (6 : ℝ) = (10 : ℝ) ^ (6 : ℕ) := by
          rw [← Real.rpow_natCast]
          norm_num
      _ < _ := hLbig
  have hhrY : (genStarPhys 0.00001 0.95 0.9 0).hrY
      = -((Real.logb 10 ((genStarPhys 0.00001 0.95 0.9 0).luminosity : ℝ) - (-4))
            / (6 - (-4)) * 2 - 1) := by
    simp only [genStarPhys]
  constructor
  · simp only [genStarPhys, hty]
  · rw [hhrY]
    linarith

end Sastro
